import Mathlib

/-!
Verification development for the gcs_utils repository: a shallow embedding of
the CAFS (content-addressable file storage) engine from src/cafs.ts and the
GCSUtils adapter from src/gcs-utils.ts, with theorems settling the claims of
the specification.

Modelling decisions:
- The GCS blob store is a finite association list from path strings to blobs;
  the Firestore side-store is an association list keyed by (folder, resourceId).
- Asynchronous methods that may throw become the monad `M α := Store →
  Except String α × Store`: a JavaScript throw carries the state reached so far
  (no rollback), and try/catch is `tryCatchM`.
- Adapter failures (GCS write/read/delete errors, Firestore errors) are
  injected through an `Env` of fault switches, one per primitive, so theorems
  can quantify over every fault schedule.
- `createHash('sha256')` lives outside the repository; the hash function is a
  parameter `Env.hash` (the code only ever uses it as an opaque deterministic
  string function).
- `new Date().toISOString()` / `new Date()` are the `Env.nowIso` / `Env.nowDate`
  strings of the operation's environment.
- Metadata documents are written by the source as `JSON.stringify(entry)` and
  read back with `JSON.parse(...) as CAFSEntry`; since that round-trip is the
  identity on entry values (dates are already modelled as strings), a stored
  document keeps the structured entry (`BlobData.doc`), and a parse of content
  that is not an entry document fails (caught, yielding null).
- JS `Buffer.byteLength(s, 'utf8')` is `byteLengthUtf8`; `JSON.stringify` of a
  string is `jsonStringify`.
-/

set_option maxHeartbeats 1000000

/-- Association-list lookup (models reading one key of the blob store / Firestore). -/
def lookupKey {α β : Type} [DecidableEq α] : List (α × β) → α → Option β
  | [], _ => none
  | (k, v) :: rest, key => if k = key then some v else lookupKey rest key

/-- Association-list overwrite-or-append (models `file.save` / `docRef.set`). -/
def setKey {α β : Type} [DecidableEq α] : List (α × β) → α → β → List (α × β)
  | [], key, v => [(key, v)]
  | (k, w) :: rest, key, v =>
    if k = key then (key, v) :: rest else (k, w) :: setKey rest key v

/-- Association-list removal (models `file.delete`). -/
def removeKey {α β : Type} [DecidableEq α] : List (α × β) → α → List (α × β)
  | [], _ => []
  | (k, w) :: rest, key =>
    if k = key then removeKey rest key else (k, w) :: removeKey rest key

/-- Character-list test: the second list starts the first (computable model of
String.startsWith, which does not reduce in the kernel). -/
def charsStart : List Char → List Char → Bool
  | _, [] => true
  | [], _ :: _ => false
  | c :: cs, p :: ps => c = p && charsStart cs ps

/-- Model of `String.startsWith`. -/
def strStarts (s pre : String) : Bool := charsStart s.data pre.data

/-- Model of `String.endsWith`. -/
def strEnds (s suf : String) : Bool := charsStart s.data.reverse suf.data.reverse

/-- UTF-8 size of one character, as Buffer.byteLength counts it. -/
def utf8CharSize (c : Char) : Nat :=
  if c.toNat < 128 then 1
  else if c.toNat < 2048 then 2
  else if c.toNat < 65536 then 3
  else 4

/-- Model of `Buffer.byteLength(s, 'utf8')`. -/
def byteLengthUtf8 (s : String) : Nat :=
  (s.data.map utf8CharSize).sum

/-- Lowercase hex digit, as JSON.stringify renders control-character escapes. -/
def hexDigitChar (n : Nat) : Char :=
  if n < 10 then Char.ofNat (48 + n) else Char.ofNat (87 + n)

/-- How `JSON.stringify` escapes one character of a string. -/
def jsonEscapeChar (c : Char) : List Char :=
  if c = '"' then ['\\', '"']
  else if c = '\\' then ['\\', '\\']
  else if c = Char.ofNat 8 then ['\\', 'b']
  else if c = Char.ofNat 9 then ['\\', 't']
  else if c = Char.ofNat 10 then ['\\', 'n']
  else if c = Char.ofNat 12 then ['\\', 'f']
  else if c = Char.ofNat 13 then ['\\', 'r']
  else if c.toNat < 32 then
    ['\\', 'u', '0', '0', hexDigitChar (c.toNat / 16), hexDigitChar (c.toNat % 16)]
  else [c]

/-- Model of `JSON.stringify` applied to a string: quote, escape, quote. -/
def jsonStringify (s : String) : String :=
  String.mk ('"' :: s.data.foldr (fun c acc => jsonEscapeChar c ++ acc) ['"'])

/-- Resolved configuration of the CAFS engine (src/cafs.ts constructor output). -/
structure GCSUtilsConfig where
  bucketName : String
  metadataCollection : String
  enableDeduplication : Bool
  maxFileSize : Nat
  defaultContentType : String
deriving DecidableEq

/-- ResourceMetadata from src/types: attributes of one stored payload. -/
structure ResourceMetadata where
  contentSize : Nat
  contentType : String
  timestamp : String
  lastAccessedAt : String
  referenceCount : Nat
  tags : List String
  customProperties : List (String × String)
deriving DecidableEq

/-- CAFSEntry from src/types: the persisted record for one digest. -/
structure CAFSEntry where
  contentHash : String
  gcsPath : String
  metadata : ResourceMetadata
  referencedBy : List String
deriving DecidableEq

/-- CAFSOperationResult from src/types: what storeContent returns. -/
structure CAFSOperationResult where
  success : Bool
  contentHash : String
  deduplicated : Bool
  storagePath : String
  error : Option String
deriving DecidableEq

/-- Content of one blob: a raw payload string, or a metadata document holding a
serialized CAFS entry (see the modelling note at the top of the file). -/
inductive BlobData where
  | raw (content : String)
  | doc (entry : CAFSEntry)
deriving DecidableEq

/-- One object of the GCS bucket, with the custom metadata writeRawContent sets. -/
structure Blob where
  data : BlobData
  contentType : String
  timestamp : String
deriving DecidableEq

/-- The document written by `writeToFirestore` in storeContent. -/
structure FirestoreDoc where
  path : String
  timestamp : String
deriving DecidableEq

/-- The externally visible state: the GCS bucket and the Firestore collection
`resources/<folder>/members/<resourceId>`. -/
structure Store where
  blobs : List (String × Blob)
  firestore : List ((String × String) × FirestoreDoc)
deriving DecidableEq

/-- Environment of one operation: the hash function, the clock readings, and a
fault switch per adapter primitive (true = that call fails). -/
structure Env where
  hash : String → String
  nowIso : String
  nowDate : String
  existsFails : String → Bool
  blobReadFails : String → Bool
  blobWriteFails : String → Bool
  blobDeleteFails : String → Bool
  firestoreFails : Bool

/-- The effect monad: state threading with JS-style exceptions (a throw keeps
the state reached so far; there is no rollback). -/
def M (α : Type) : Type := Store → Except String α × Store

instance : Monad M where
  pure a := fun s => (Except.ok a, s)
  bind x f := fun s =>
    match x s with
    | (Except.ok a, t) => f a t
    | (Except.error e, t) => (Except.error e, t)

/-- Decidable equality of outcomes, so closed statements evaluate by decide. -/
instance {ε α : Type} [DecidableEq ε] [DecidableEq α] : DecidableEq (Except ε α) :=
  fun a b =>
    match a, b with
    | Except.ok x, Except.ok y =>
      if h : x = y then isTrue (by rw [h])
      else isFalse fun c => h (Except.ok.inj c)
    | Except.error x, Except.error y =>
      if h : x = y then isTrue (by rw [h])
      else isFalse fun c => h (Except.error.inj c)
    | Except.ok _, Except.error _ => isFalse fun c => Except.noConfusion c
    | Except.error _, Except.ok _ => isFalse fun c => Except.noConfusion c

/-- Model of `throw new Error(msg)`. -/
def throwM {α : Type} (e : String) : M α := fun s => (Except.error e, s)

/-- Model of `try body catch (e) handler`. -/
def tryCatchM {α : Type} (body : M α) (handler : String → M α) : M α := fun s =>
  match body s with
  | (Except.ok a, t) => (Except.ok a, t)
  | (Except.error e, t) => handler e t

/-- GCSUtils.fileExists: never throws; an adapter failure is caught and
reported as false (src/gcs-utils.ts lines 190-199). -/
def fileExists (env : Env) (filePath : String) : M Bool := fun s =>
  (Except.ok (if env.existsFails filePath then false
              else (lookupKey s.blobs filePath).isSome), s)

/-- GCSUtils.readRawContent: throws (wrapped) when the file is absent or the
download fails (src/gcs-utils.ts lines 128-143). -/
def readRawContent (env : Env) (filePath : String) : M BlobData := fun s =>
  match lookupKey s.blobs filePath with
  | none =>
    (Except.error ("Failed to read raw content from " ++ filePath ++
      ": file does not exist"), s)
  | some b =>
    if env.blobReadFails filePath then
      (Except.error ("Failed to read raw content from " ++ filePath ++
        ": download error"), s)
    else (Except.ok b.data, s)

/-- GCSUtils.writeRawContent: unconditional overwrite via `file.save`, with the
content hash and caller-supplied timestamp as custom metadata; throws (wrapped)
on adapter failure (src/gcs-utils.ts lines 151-174). -/
def writeRawContent (env : Env) (filePath : String) (content : BlobData)
    (contentType timestamp : String) : M Unit := fun s =>
  if env.blobWriteFails filePath then
    (Except.error ("Failed to write raw content to " ++ filePath), s)
  else
    let b : Blob :=
      { data := content, contentType := contentType, timestamp := timestamp }
    (Except.ok (), { s with blobs := setKey s.blobs filePath b })

/-- GCSUtils.deleteFile: throws (wrapped) on adapter failure
(src/gcs-utils.ts lines 205-213). -/
def deleteFile (env : Env) (filePath : String) : M Unit := fun s =>
  if env.blobDeleteFails filePath then
    (Except.error ("Failed to delete file " ++ filePath), s)
  else (Except.ok (), { s with blobs := removeKey s.blobs filePath })

/-- GCSUtils.listFiles: names of the blobs whose path starts with the given
characters (src/gcs-utils.ts lines 236-244). -/
def listFiles (pre : String) : M (List String) := fun s =>
  (Except.ok ((s.blobs.map Prod.fst).filter (fun p => strStarts p pre)), s)

/-- GCSUtils.writeToFirestore: sets `resources/<folder>/members/<resourceId>`
to the given document; throws (wrapped) on failure (src/gcs-utils.ts 109-121). -/
def writeToFirestore (env : Env) (folder resourceId : String)
    (content : FirestoreDoc) : M Unit := fun s =>
  if env.firestoreFails then (Except.error "Failed to write to Firestore", s)
  else
    (Except.ok (),
     { s with firestore := setKey s.firestore (folder, resourceId) content })

/-- CAFS.generateContentHash: sha256 hex digest, abstracted as Env.hash. -/
def generateContentHash (env : Env) (content : String) : String :=
  env.hash content

/-- CAFS.getStoragePath: note the source's comment promises a two-character
directory level but the returned path is just folder/hash (src/cafs.ts 258-261). -/
def getStoragePath (folder contentHash : String) : String :=
  folder ++ "/" ++ contentHash

/-- Path of the metadata document of a digest, folder/metadata/digest.json,
as built inline in storeCAFSMetadata / getCAFSMetadata / deleteCAFSMetadata. -/
def metadataPathOf (folder contentHash : String) : String :=
  folder ++ "/metadata/" ++ contentHash ++ ".json"

/-- Abridged rendering of `JSON.stringify(entry, null, 2)`; no claim depends on
the exact document text, only on its parseability back into the entry. -/
def entryJsonString (e : CAFSEntry) : String :=
  "\x7b \"contentHash\": " ++ jsonStringify e.contentHash ++
    ", \"gcsPath\": " ++ jsonStringify e.gcsPath ++
    ", \"referenceCount\": " ++ toString e.metadata.referenceCount ++ " \x7d"

/-- The string a download of a blob yields. -/
def blobDataString : BlobData → String
  | BlobData.raw c => c
  | BlobData.doc e => entryJsonString e

/-- CAFS.getCAFSMetadata: read folder/metadata/hash.json and parse it; any
failure (absent file, read fault, non-entry content) is caught and yields
null (src/cafs.ts lines 280-288). -/
def getCAFSMetadata (env : Env) (folder contentHash : String) :
    M (Option CAFSEntry) :=
  tryCatchM
    (do
      let d ← readRawContent env (metadataPathOf folder contentHash)
      match d with
      | BlobData.doc e => pure (some e)
      | BlobData.raw _ => throwM "JSON parse did not yield a CAFS entry")
    (fun _ => pure none)

/-- CAFS.storeCAFSMetadata: serialize the entry to folder/metadata/hash.json
with the caller-supplied timestamp (src/cafs.ts lines 267-273). -/
def storeCAFSMetadata (env : Env) (folder : String) (entry : CAFSEntry)
    (timestamp : String) : M Unit :=
  writeRawContent env (metadataPathOf folder entry.contentHash)
    (BlobData.doc entry) "application/json" timestamp

/-- CAFS.deleteCAFSMetadata (src/cafs.ts lines 294-297). -/
def deleteCAFSMetadata (env : Env) (folder contentHash : String) : M Unit :=
  deleteFile env (metadataPathOf folder contentHash)

/-- CAFS.updateReferenceCount: read-modify-write of the entry; silently a
no-op when the entry is absent; `Math.max(0, rc + delta)` is the Int max with
0 (src/cafs.ts lines 304-310). -/
def updateReferenceCount (env : Env) (folder contentHash : String)
    (delta : Int) : M Unit := do
  let entry ← getCAFSMetadata env folder contentHash
  match entry with
  | some e =>
    let newCount : Nat := (max 0 ((e.metadata.referenceCount : Int) + delta)).toNat
    storeCAFSMetadata env folder
      { e with metadata := { e.metadata with referenceCount := newCount } }
      e.metadata.timestamp
  | none => pure ()

/-- CAFS.updateLastAccessTime: sets lastAccessedAt to the current instant and
re-stores the entry; no-op when the entry is absent (src/cafs.ts 316-322). -/
def updateLastAccessTime (env : Env) (folder contentHash : String) : M Unit := do
  let entry ← getCAFSMetadata env folder contentHash
  match entry with
  | some e =>
    storeCAFSMetadata env folder
      { e with metadata := { e.metadata with lastAccessedAt := env.nowDate } }
      e.metadata.timestamp
  | none => pure ()

/-- Lowercase hex digit class [a-f0-9] of the source regex. -/
def isLowerHexDigit (c : Char) : Bool :=
  ('a' ≤ c && c ≤ 'f') || ('0' ≤ c && c ≤ '9')

/-- Try to match the regex `cafs\/[a-f0-9]\x7b2\x7d\/([a-f0-9]\x7b64\x7d)` at the
head of the character list, returning the 64-character capture group. -/
def matchCafsAt : List Char → Option (List Char)
  | 'c' :: 'a' :: 'f' :: 's' :: '/' :: h1 :: h2 :: '/' :: rest =>
    if isLowerHexDigit h1 && isLowerHexDigit h2 then
      let cap := rest.take 64
      if cap.length = 64 && cap.all isLowerHexDigit then some cap else none
    else none
  | _ => none

/-- Leftmost occurrence of the pattern anywhere in the list (JS `String.match`
with a non-anchored regex). -/
def scanForCafs : List Char → Option (List Char)
  | [] => none
  | c :: rest =>
    match matchCafsAt (c :: rest) with
    | some cap => some cap
    | none => scanForCafs rest

/-- CAFS.extractHashFromPath: first match of
`cafs\/[a-f0-9]\x7b2\x7d\/([a-f0-9]\x7b64\x7d)` in the path, else null
(src/cafs.ts lines 329-332). -/
def extractHashFromPath (path : String) : Option String :=
  Option.map String.mk (scanForCafs path.data)

/-- The identity descriptor storeContent takes (src/cafs.ts lines 38-43). -/
structure StoreMeta where
  id : String
  typeId : String
  roleId : String
  executionId : String
deriving DecidableEq

/-- CAFS.storeContent (src/cafs.ts lines 37-126): folder := meta.typeId,
content := JSON.stringify(data); size check, dedup check, blob write, then a
Firestore document write. The CAFS entry is constructed (`_cafsEntry`) but —
exactly as in the source — never persisted to the metadata store. -/
def storeContent (cfg : GCSUtilsConfig) (env : Env) (meta : StoreMeta)
    (data : String) : M CAFSOperationResult :=
  let folder := meta.typeId
  let resourceId := meta.id
  let content := jsonStringify data
  tryCatchM
    (do
      let contentSize := byteLengthUtf8 content
      if contentSize > cfg.maxFileSize then
        pure { success := false, contentHash := "", deduplicated := false,
               storagePath := "",
               error := some ("Content size " ++ toString contentSize ++
                 " exceeds maximum allowed size " ++ toString cfg.maxFileSize) }
      else do
        let contentHash := generateContentHash env content
        let storagePath := getStoragePath folder contentHash
        let dedupHit ←
          if cfg.enableDeduplication then fileExists env storagePath
          else pure false
        if dedupHit then do
          updateReferenceCount env folder contentHash 1
          pure { success := true, contentHash := contentHash,
                 deduplicated := true, storagePath := storagePath, error := none }
        else do
          let fullMetadata : ResourceMetadata :=
            { contentSize := contentSize, contentType := cfg.defaultContentType,
              timestamp := env.nowIso, lastAccessedAt := env.nowDate,
              referenceCount := 1, tags := [], customProperties := [] }
          writeRawContent env storagePath (BlobData.raw content)
            fullMetadata.contentType fullMetadata.timestamp
          let _cafsEntry : CAFSEntry :=
            { contentHash := contentHash, gcsPath := storagePath,
              metadata := fullMetadata, referencedBy := [] }
          writeToFirestore env folder resourceId
            { path := storagePath, timestamp := fullMetadata.timestamp }
          pure { success := true, contentHash := contentHash,
                 deduplicated := false, storagePath := storagePath,
                 error := none })
    (fun e =>
      pure { success := false, contentHash := "", deduplicated := false,
             storagePath := "",
             error := some ("Failed to store content: " ++ e) })

/-- CAFS.retrieveContent (src/cafs.ts lines 134-163). The storage path is the
bare contentHash (the folder-prefixing call is commented out in the source),
and the hash-mismatch check is computed but commented out. -/
def retrieveContent (env : Env) (folder contentHash : String)
    (updateAccessTime : Bool) : M String :=
  tryCatchM
    (do
      let storagePath := contentHash
      let ex ← fileExists env storagePath
      if ex = false then
        throwM ("Content with hash " ++ contentHash ++ " not found")
      else do
        let d ← readRawContent env storagePath
        let content := blobDataString d
        let _actualHash := generateContentHash env content
        if updateAccessTime then
          updateLastAccessTime env folder contentHash
        else pure ()
        pure content)
    (fun e => throwM ("Failed to retrieve content: " ++ e))

/-- CAFS.contentExists (src/cafs.ts lines 170-173). -/
def contentExists (env : Env) (folder contentHash : String) : M Bool :=
  fileExists env (getStoragePath folder contentHash)

/-- CAFS.deleteContent (src/cafs.ts lines 180-207): NotFound when no entry;
non-forced delete decrements (Nat subtraction is exactly Math.max(0, rc-1))
and returns early while the new count is still positive; otherwise blob
deletion strictly before metadata deletion. -/
def deleteContent (env : Env) (folder contentHash : String)
    (forceDelete : Bool) : M Unit :=
  tryCatchM
    (do
      let entry ← getCAFSMetadata env folder contentHash
      match entry with
      | none => throwM ("CAFS entry not found for hash " ++ contentHash)
      | some cafsEntry => do
        let proceed ←
          if forceDelete then pure true
          else do
            let newRefCount := cafsEntry.metadata.referenceCount - 1
            updateReferenceCount env folder contentHash (-1)
            pure (newRefCount == 0)
        if proceed then do
          deleteFile env cafsEntry.gcsPath
          deleteCAFSMetadata env folder contentHash
        else pure ())
    (fun e => throwM ("Failed to delete content: " ++ e))

/-- CAFS.getCAFSEntry (src/cafs.ts lines 214-216). -/
def getCAFSEntry (env : Env) (folder contentHash : String) :
    M (Option CAFSEntry) :=
  getCAFSMetadata env folder contentHash

/-- Loop body of CAFS.listCAFSEntries: skip .json metadata files, extract each
hash, resolve its entry, silently skip failures (src/cafs.ts lines 229-239). -/
def listEntriesLoop (env : Env) (folder : String)
    (filt : Option (CAFSEntry → Bool)) : List String → M (List CAFSEntry)
  | [] => pure []
  | file :: rest =>
    if strEnds file ".json" then listEntriesLoop env folder filt rest
    else
      match extractHashFromPath file with
      | none => listEntriesLoop env folder filt rest
      | some h => do
        let entry ← getCAFSMetadata env folder h
        let tail ← listEntriesLoop env folder filt rest
        match entry with
        | some e =>
          if (match filt with | some f => f e | none => true) then
            pure (e :: tail)
          else pure tail
        | none => pure tail

/-- CAFS.listCAFSEntries (src/cafs.ts lines 223-242). -/
def listCAFSEntries (env : Env) (folder : String)
    (filt : Option (CAFSEntry → Bool)) : M (List CAFSEntry) := do
  let files ← listFiles (folder ++ "/")
  listEntriesLoop env folder filt files

/-- JS falsiness of an optional string (undefined or empty). -/
def jsFalsyStr : Option String → Bool
  | none => true
  | some s => s = ""

/-- JS `a || b` on optional strings, yielding the chosen string. -/
def jsOrStr (a b : Option String) : String :=
  if jsFalsyStr a then b.getD "" else a.getD ""

/-- GCSUtils constructor (src/gcs-utils.ts lines 14-20): throws when the
argument is falsy OR the BUCKET_NAME environment variable is falsy; otherwise
the bucket name is `bucketName || process.env.BUCKET_NAME`. -/
def GCSUtilsConstruct (bucketName envBucketName : Option String) :
    Except String String :=
  if jsFalsyStr bucketName || jsFalsyStr envBucketName then
    Except.error "BUCKET_NAME environment variable is not set"
  else
    Except.ok (jsOrStr bucketName envBucketName)

/-! Concrete fixtures used by the closed evaluation theorems and witnesses. -/

/-- Fault-free environment with a constant hash function. -/
def envFix : Env :=
  { hash := fun _ => "abc123", nowIso := "2024-01-01T00:00:00.000Z",
    nowDate := "2024-01-01T00:00:00.000Z",
    existsFails := fun _ => false, blobReadFails := fun _ => false,
    blobWriteFails := fun _ => false, blobDeleteFails := fun _ => false,
    firestoreFails := false }

/-- The constructor's default configuration. -/
def cfgFix : GCSUtilsConfig :=
  { bucketName := "tp-resources", metadataCollection := "cafs_metadata",
    enableDeduplication := true, maxFileSize := 10485760,
    defaultContentType := "application/json" }

/-- A concrete identity descriptor; the folder used for storage is typeId. -/
def metaFix : StoreMeta :=
  { id := "res1", typeId := "cafs", roleId := "role", executionId := "exec" }

/-- The empty initial state. -/
def emptyStore : Store := { blobs := [], firestore := [] }

/-- The state reached by one successful store of "hello" into folder "cafs". -/
def s1Fix : Store := (storeContent cfgFix envFix metaFix "hello" emptyStore).2

/-- Shape of a storeContent failure result: when success is false, the other
result fields are empty and an error description is present. -/
def failureShaped (r : CAFSOperationResult) : Prop :=
  r.success = false →
    r.contentHash = "" ∧ r.deduplicated = false ∧ r.storagePath = "" ∧
      r.error.isSome = true

/-- Outcome satisfies P whenever it is a normal (non-throw) return. -/
def okSat {α : Type} (P : α → Prop) (out : Except String α × Store) : Prop :=
  match out.1 with
  | Except.ok a => P a
  | Except.error _ => True

/-- The blob storeCAFSMetadata writes for an entry. -/
def metadataBlob (entry : CAFSEntry) (timestamp : String) : Blob :=
  { data := BlobData.doc entry, contentType := "application/json",
    timestamp := timestamp }

/-- Resource metadata fixture with a given reference count. -/
def mdFix (rc : Nat) : ResourceMetadata :=
  { contentSize := 5, contentType := "application/json", timestamp := "T0",
    lastAccessedAt := "A0", referenceCount := rc, tags := [],
    customProperties := [] }

/-- Entry fixture for a digest, stored under folder "cafs". -/
def entFix (h : String) (rc : Nat) : CAFSEntry :=
  { contentHash := h, gcsPath := "cafs/" ++ h, metadata := mdFix rc,
    referencedBy := [] }

/-- The payload blob fixture (content "x"). -/
def payloadBlobFix : Blob :=
  { data := BlobData.raw "x", contentType := "t", timestamp := "T0" }

/-- State fixture: a payload blob at cafs/h and its metadata document. -/
def stateWith (h : String) (rc : Nat) : Store :=
  { blobs := [("cafs/" ++ h, payloadBlobFix),
      ("cafs/metadata/" ++ h ++ ".json", metadataBlob (entFix h rc) "T0")],
    firestore := [] }

/-- A 64-character lowercase-hex digest (all a's). -/
def h64 : String := String.mk (List.replicate 64 'a')

/-- State holding a blob with content that does not hash back to its requested
digest: the blob at path "wanted" holds "payload", and envFix.hash "payload"
is "abc123". -/
def s4Fix : Store :=
  { blobs := [("wanted",
      { data := BlobData.raw "payload", contentType := "text/plain",
        timestamp := "T0" })],
    firestore := [] }

/-- Environment whose blob-delete primitive fails at the payload path. -/
def envDelFailFix : Env :=
  { envFix with blobDeleteFails := fun p => p == "cafs/abc123" }

/-! Helper lemmas: how the monad and the association-list state reduce. -/

theorem runPure {α : Type} (a : α) (s : Store) :
    (pure a : M α) s = (Except.ok a, s) := rfl

theorem runBind {α β : Type} (x : M α) (f : α → M β) (s : Store) :
    (x >>= f) s =
      match x s with
      | (Except.ok a, t) => f a t
      | (Except.error e, t) => (Except.error e, t) := rfl

theorem lookupKey_setKey_self {α β : Type} [DecidableEq α]
    (l : List (α × β)) (k : α) (v : β) :
    lookupKey (setKey l k v) k = some v := by
  induction l with
  | nil => simp [setKey, lookupKey]
  | cons p rest ih =>
    rcases p with ⟨a, b⟩
    by_cases h : a = k <;> simp [setKey, lookupKey, h, ih]

theorem lookupKey_setKey_ne {α β : Type} [DecidableEq α]
    (l : List (α × β)) (k k2 : α) (v : β) (h : k ≠ k2) :
    lookupKey (setKey l k v) k2 = lookupKey l k2 := by
  induction l with
  | nil => simp [setKey, lookupKey, h]
  | cons p rest ih =>
    rcases p with ⟨a, b⟩
    by_cases ha : a = k
    · subst ha; simp [setKey, lookupKey, h, ih]
    · simp [setKey, lookupKey, ha, ih]

theorem lookupKey_removeKey_self {α β : Type} [DecidableEq α]
    (l : List (α × β)) (k : α) :
    lookupKey (removeKey l k) k = none := by
  induction l with
  | nil => simp [removeKey, lookupKey]
  | cons p rest ih =>
    rcases p with ⟨a, b⟩
    by_cases h : a = k <;> simp [removeKey, lookupKey, h, ih]

theorem lookupKey_removeKey_ne {α β : Type} [DecidableEq α]
    (l : List (α × β)) (k k2 : α) (h : k ≠ k2) :
    lookupKey (removeKey l k) k2 = lookupKey l k2 := by
  induction l with
  | nil => simp [removeKey, lookupKey]
  | cons p rest ih =>
    rcases p with ⟨a, b⟩
    by_cases ha : a = k
    · subst ha; simp [removeKey, lookupKey, h, ih]
    · simp [removeKey, lookupKey, ha, ih]

/-- One reduction equation for getCAFSMetadata: it never throws, never changes
the state, and yields the parsed entry exactly when a readable entry document
sits at the metadata path. -/
theorem getCAFSMetadata_run (env : Env) (folder h : String) (s : Store) :
    getCAFSMetadata env folder h s =
      (Except.ok (match lookupKey s.blobs (metadataPathOf folder h) with
        | none => none
        | some mb =>
          if env.blobReadFails (metadataPathOf folder h) then none
          else match mb.data with
            | BlobData.doc e => some e
            | BlobData.raw _ => none), s) := by
  unfold getCAFSMetadata tryCatchM readRawContent throwM
  simp only [runBind]
  rcases hl : lookupKey s.blobs (metadataPathOf folder h) with _ | mb
  · simp [hl, runPure]
  · by_cases hr : env.blobReadFails (metadataPathOf folder h)
    · simp [hl, hr, runPure]
    · simp only [hl, hr, if_false, Bool.false_eq_true, ite_false]
      rcases hd : mb.data with c | e <;> simp [runPure]

theorem storeCAFSMetadata_run (env : Env) (folder : String) (e : CAFSEntry)
    (ts : String) (s : Store)
    (hw : env.blobWriteFails (metadataPathOf folder e.contentHash) = false) :
    storeCAFSMetadata env folder e ts s =
      (Except.ok (),
       { s with
         blobs := setKey s.blobs (metadataPathOf folder e.contentHash)
           (metadataBlob e ts) }) := by
  unfold storeCAFSMetadata writeRawContent metadataBlob
  simp [hw]

/-- Specialisation: getCAFSMetadata finds the entry of a readable document. -/
theorem getCAFSMetadata_found (env : Env) (folder h : String) (s : Store)
    (mb : Blob) (e : CAFSEntry)
    (hmp : lookupKey s.blobs (metadataPathOf folder h) = some mb)
    (hdoc : mb.data = BlobData.doc e)
    (hrf : env.blobReadFails (metadataPathOf folder h) = false) :
    getCAFSMetadata env folder h s = (Except.ok (some e), s) := by
  rw [getCAFSMetadata_run, hmp]
  simp [hrf, hdoc]

/-- Specialisation: getCAFSMetadata yields null when no document exists. -/
theorem getCAFSMetadata_absent (env : Env) (folder h : String) (s : Store)
    (hmp : lookupKey s.blobs (metadataPathOf folder h) = none) :
    getCAFSMetadata env folder h s = (Except.ok none, s) := by
  rw [getCAFSMetadata_run, hmp]

/-- Reduction of updateReferenceCount when a readable, writable entry document
for the digest exists (its contentHash agreeing with its key). -/
theorem updateReferenceCount_run (env : Env) (folder h : String) (delta : Int)
    (s : Store) (mb : Blob) (e : CAFSEntry)
    (hmp : lookupKey s.blobs (metadataPathOf folder h) = some mb)
    (hdoc : mb.data = BlobData.doc e)
    (hch : e.contentHash = h)
    (hrf : env.blobReadFails (metadataPathOf folder h) = false)
    (hwf : env.blobWriteFails (metadataPathOf folder h) = false) :
    updateReferenceCount env folder h delta s =
      (Except.ok (),
       { s with
         blobs := setKey s.blobs (metadataPathOf folder h)
           (metadataBlob
             { e with metadata := { e.metadata with
                referenceCount := (max 0 ((e.metadata.referenceCount : Int) + delta)).toNat } }
             e.metadata.timestamp) }) := by
  unfold updateReferenceCount
  simp only [runBind, getCAFSMetadata_found env folder h s mb e hmp hdoc hrf]
  rw [storeCAFSMetadata_run]
  · simp [hch]
  · simpa [hch] using hwf

/-- Reduction of updateLastAccessTime under the same conditions. -/
theorem updateLastAccessTime_run (env : Env) (folder h : String)
    (s : Store) (mb : Blob) (e : CAFSEntry)
    (hmp : lookupKey s.blobs (metadataPathOf folder h) = some mb)
    (hdoc : mb.data = BlobData.doc e)
    (hch : e.contentHash = h)
    (hrf : env.blobReadFails (metadataPathOf folder h) = false)
    (hwf : env.blobWriteFails (metadataPathOf folder h) = false) :
    updateLastAccessTime env folder h s =
      (Except.ok (),
       { s with
         blobs := setKey s.blobs (metadataPathOf folder h)
           (metadataBlob
             { e with metadata := { e.metadata with lastAccessedAt := env.nowDate } }
             e.metadata.timestamp) }) := by
  unfold updateLastAccessTime
  simp only [runBind, getCAFSMetadata_found env folder h s mb e hmp hdoc hrf]
  rw [storeCAFSMetadata_run]
  · simp [hch]
  · simpa [hch] using hwf

/-! Machinery for postconditions that hold on every normal return. -/

theorem okSat_pure {α : Type} (P : α → Prop) (a : α) (s : Store) (h : P a) :
    okSat P ((pure a : M α) s) := h

theorem okSat_bind {α β : Type} (P : β → Prop) (x : M α) (f : α → M β)
    (s : Store) (h : ∀ a t, okSat P (f a t)) : okSat P ((x >>= f) s) := by
  rw [runBind]
  rcases x s with ⟨e | a, t⟩
  · exact trivial
  · exact h a t

theorem okSat_throw {α : Type} (P : α → Prop) (e : String) (s : Store) :
    okSat P (throwM e s) := trivial

theorem okSat_ite {α : Type} (P : α → Prop) (c : Prop) [Decidable c]
    (x y : M α) (s : Store) (hx : okSat P (x s)) (hy : okSat P (y s)) :
    okSat P ((if c then x else y) s) := by
  by_cases h : c <;> simp [h, hx, hy]

/-- A tryCatch whose handler always returns normally with a value satisfying P,
over a body every normal return of which satisfies P, returns normally with a
value satisfying P. -/
theorem tryCatch_ok_shape {α : Type} (P : α → Prop) (body : M α)
    (g : String → α) (s : Store)
    (hb : okSat P (body s)) (hg : ∀ e, P (g e)) :
    ∃ a t, tryCatchM body (fun e => pure (g e)) s = (Except.ok a, t) ∧ P a := by
  unfold tryCatchM
  rcases hbs : body s with ⟨e | a, t⟩
  · exact ⟨g e, t, rfl, hg e⟩
  · refine ⟨a, t, rfl, ?_⟩
    have hP := hb
    rw [hbs] at hP
    exact hP

/-! Claim theorems. -/

/-- C1: the claim says a successful first store persists a CAS entry with
referenceCount 1 readable back via getCAFSEntry, so that an entry exists iff
the payload exists. Evaluating the code at a concrete fresh store refutes
this: the store succeeds and the payload blob exists at the storage path, yet
getCAFSEntry yields null — storeContent constructs the entry but never writes
it to the metadata store (it only writes a Firestore document). -/
theorem C1_store_leaves_no_entry :
    (storeContent cfgFix envFix metaFix "hello" emptyStore).1 =
      Except.ok { success := true, contentHash := "abc123", deduplicated := false,
                  storagePath := "cafs/abc123", error := none }
    ∧ (lookupKey s1Fix.blobs "cafs/abc123").isSome = true
    ∧ (getCAFSEntry envFix "cafs" "abc123" s1Fix).1 = Except.ok none :=
  ⟨rfl, rfl, rfl⟩

/-- C2: the claim says a second byte-identical store yields deduplicated
true with the same hash and path, no new payload bytes, and referenceCount
going from 1 to 2. The flags, hash, path and no-new-bytes parts hold, but the
reference count part fails: no metadata entry exists after either call (the
first store never persisted one), so the dedup-hit increment is a no-op. -/
theorem C2_dedup_without_refcount :
    (storeContent cfgFix envFix metaFix "hello" emptyStore).1 =
      Except.ok { success := true, contentHash := "abc123", deduplicated := false,
                  storagePath := "cafs/abc123", error := none }
    ∧ storeContent cfgFix envFix metaFix "hello" s1Fix =
        (Except.ok { success := true, contentHash := "abc123", deduplicated := true,
                     storagePath := "cafs/abc123", error := none }, s1Fix)
    ∧ (getCAFSEntry envFix "cafs" "abc123" s1Fix).1 = Except.ok none
    ∧ (getCAFSEntry envFix "cafs" "abc123"
        (storeContent cfgFix envFix metaFix "hello" s1Fix).2).1 = Except.ok none :=
  ⟨rfl, rfl, rfl, rfl⟩

/-- C3: the claim says retrieveContent applied to the contentHash returned by
a successful storeContent returns the stored content. Evaluating the code
refutes it: the payload is stored at folder/hash, but retrieveContent looks up
the bare hash as the storage path (the folder-prefixing call is commented out
in the source), so the round trip throws NotFound. -/
theorem C3_roundtrip_broken :
    (storeContent cfgFix envFix metaFix "hello" emptyStore).1 =
      Except.ok { success := true, contentHash := "abc123", deduplicated := false,
                  storagePath := "cafs/abc123", error := none }
    ∧ (lookupKey s1Fix.blobs "cafs/abc123").isSome = true
    ∧ retrieveContent envFix "cafs" "abc123" true s1Fix =
        (Except.error "Failed to retrieve content: Content with hash abc123 not found",
         s1Fix) :=
  ⟨rfl, rfl, rfl⟩

/-- C4: the claim says a digest mismatch on read is surfaced as a
ContentIntegrityError distinct from NotFound and never silently ignored.
Evaluating the code refutes it: with a blob present at path "wanted" whose
bytes hash to "abc123" (≠ "wanted"), retrieveContent returns the bytes
normally — the integrity comparison is commented out in the source. -/
theorem C4_integrity_mismatch_ignored :
    (lookupKey s4Fix.blobs "wanted").isSome = true
    ∧ generateContentHash envFix "payload" = "abc123"
    ∧ "abc123" ≠ "wanted"
    ∧ retrieveContent envFix "somefolder" "wanted" true s4Fix =
        (Except.ok "payload", s4Fix) :=
  ⟨rfl, rfl, by decide, rfl⟩

/-- C5: any input whose encoded byte length exceeds the configured
maxFileSize makes storeContent return success false with the size-limit error
description, leaving the state (blob store and metadata store) unchanged. -/
theorem C5_size_limit_rejected (cfg : GCSUtilsConfig) (env : Env)
    (meta : StoreMeta) (data : String) (s : Store)
    (h : byteLengthUtf8 (jsonStringify data) > cfg.maxFileSize) :
    storeContent cfg env meta data s =
      (Except.ok { success := false, contentHash := "", deduplicated := false,
                   storagePath := "",
                   error := some ("Content size " ++
                     toString (byteLengthUtf8 (jsonStringify data)) ++
                     " exceeds maximum allowed size " ++
                     toString cfg.maxFileSize) }, s) := by
  simp only [storeContent, tryCatchM]
  rw [if_pos h]

/-- C5 witness: a store of "hello" (7 encoded bytes) against maxFileSize 3. -/
theorem C5_size_limit_rejected_witness :
    storeContent { cfgFix with maxFileSize := 3 } envFix metaFix "hello" emptyStore =
      (Except.ok { success := false, contentHash := "", deduplicated := false,
                   storagePath := "",
                   error := some "Content size 7 exceeds maximum allowed size 3" },
       emptyStore) :=
  C5_size_limit_rejected { cfgFix with maxFileSize := 3 } envFix metaFix "hello"
    emptyStore (by decide)

/-- C8: the claim says listCAFSEntries returns exactly the digests stored
under the folder with positive refcount together with their metadata.
Evaluating the code refutes it: with a payload at cafs/h64 and its entry
document (refcount 1) both present, the listing is empty, because
extractHashFromPath only matches paths of the shape cafs/xx/digest while
getStoragePath writes folder/digest. -/
theorem C8_listing_returns_nothing :
    extractHashFromPath ("cafs/" ++ h64) = none
    ∧ (getCAFSEntry envFix "cafs" h64 (stateWith h64 1)).1 =
        Except.ok (some (entFix h64 1))
    ∧ (entFix h64 1).metadata.referenceCount = 1
    ∧ (lookupKey (stateWith h64 1).blobs ("cafs/" ++ h64)).isSome = true
    ∧ listCAFSEntries envFix "cafs" none (stateWith h64 1) =
        (Except.ok [], stateWith h64 1) :=
  ⟨rfl, rfl, rfl, rfl, by decide⟩

/-- C10: constructing a GCSUtils throws whenever the BUCKET_NAME environment
variable is absent, even with a non-empty explicit bucket argument; when the
variable is set (non-empty) and a non-empty argument is given, the argument
becomes the bucket name. -/
theorem C10_constructor_env_required (arg envName : String) :
    GCSUtilsConstruct (some arg) none =
      Except.error "BUCKET_NAME environment variable is not set"
    ∧ (arg ≠ "" → envName ≠ "" →
        GCSUtilsConstruct (some arg) (some envName) = Except.ok arg) := by
  constructor
  · unfold GCSUtilsConstruct
    simp [jsFalsyStr]
  · intro h1 h2
    unfold GCSUtilsConstruct jsOrStr
    simp [jsFalsyStr, h1, h2]

/-- C10 witness: concrete bucket names. -/
theorem C10_constructor_env_required_witness :
    GCSUtilsConstruct (some "mybucket") none =
      Except.error "BUCKET_NAME environment variable is not set"
    ∧ GCSUtilsConstruct (some "mybucket") (some "envbucket") =
        Except.ok "mybucket" :=
  ⟨(C10_constructor_env_required "mybucket" "envbucket").1,
   (C10_constructor_env_required "mybucket" "envbucket").2 (by decide) (by decide)⟩

/-- C6: storeContent never raises: for every configuration, fault schedule,
input and state the outcome is a normal structured result, and any result with
success false carries empty contentHash and storagePath, deduplicated false
and an error description. -/
theorem C6_store_never_raises (cfg : GCSUtilsConfig) (env : Env)
    (meta : StoreMeta) (data : String) (s : Store) :
    ∃ r t, storeContent cfg env meta data s = (Except.ok r, t) ∧
      failureShaped r := by
  simp only [storeContent]
  apply tryCatch_ok_shape
  · apply okSat_ite
    · apply okSat_pure
      intro hf
      exact ⟨rfl, rfl, rfl, rfl⟩
    · apply okSat_ite <;>
        (apply okSat_bind
         intro a t
         apply okSat_ite
         · apply okSat_bind
           intro b t2
           apply okSat_pure
           intro hf
           simp at hf
         · apply okSat_bind
           intro u t3
           apply okSat_bind
           intro u2 t4
           apply okSat_pure
           intro hf
           simp at hf)
  · intro e
    intro hf
    exact ⟨rfl, rfl, rfl, rfl⟩

/-- C6 witness: with every blob write failing, the store of "hello" returns
normally with the structured failure result. -/
theorem C6_store_never_raises_witness :
    ∃ r t, storeContent cfgFix
      { envFix with blobWriteFails := fun _ => true } metaFix "hello"
      emptyStore = (Except.ok r, t) ∧ failureShaped r :=
  C6_store_never_raises cfgFix
    { envFix with blobWriteFails := fun _ => true } metaFix "hello" emptyStore

/-- Arithmetic of the decrement: Math.max(0, rc + (-1)) is Nat subtraction. -/
theorem maxSubOne (n : Nat) : (max 0 ((n : Int) + (-1))).toNat = n - 1 := by
  omega

/-- C7: deleteContent fails with NotFound when no entry document exists; with
forceDelete false it decrements the reference count by 1 (floored at 0) and
leaves the blob untouched while the resulting count is still positive; when
the count reaches 0, or forceDelete is true, it removes the blob at the
entry's storage path and then the metadata entry; and blob deletion strictly
precedes metadata deletion: when the blob delete fails, the entry document is
still present. -/
theorem C7_delete_lifecycle :
    (∀ (env : Env) (folder h : String) (fd : Bool) (s : Store),
      lookupKey s.blobs (metadataPathOf folder h) = none →
      deleteContent env folder h fd s =
        (Except.error ("Failed to delete content: CAFS entry not found for hash " ++ h), s))
    ∧
    (∀ (env : Env) (folder h : String) (s : Store) (mb : Blob) (e : CAFSEntry),
      lookupKey s.blobs (metadataPathOf folder h) = some mb →
      mb.data = BlobData.doc e →
      e.contentHash = h →
      env.blobReadFails (metadataPathOf folder h) = false →
      env.blobWriteFails (metadataPathOf folder h) = false →
      e.gcsPath ≠ metadataPathOf folder h →
      2 ≤ e.metadata.referenceCount →
      ∃ t, deleteContent env folder h false s = (Except.ok (), t)
        ∧ lookupKey t.blobs e.gcsPath = lookupKey s.blobs e.gcsPath
        ∧ (getCAFSMetadata env folder h t).1 =
            Except.ok (some { e with metadata :=
              { e.metadata with referenceCount := e.metadata.referenceCount - 1 } }))
    ∧
    (∀ (env : Env) (folder h : String) (s : Store) (mb : Blob) (e : CAFSEntry),
      lookupKey s.blobs (metadataPathOf folder h) = some mb →
      mb.data = BlobData.doc e →
      e.contentHash = h →
      env.blobReadFails (metadataPathOf folder h) = false →
      env.blobWriteFails (metadataPathOf folder h) = false →
      env.blobDeleteFails e.gcsPath = false →
      env.blobDeleteFails (metadataPathOf folder h) = false →
      e.gcsPath ≠ metadataPathOf folder h →
      e.metadata.referenceCount = 1 →
      ∃ t, deleteContent env folder h false s = (Except.ok (), t)
        ∧ lookupKey t.blobs e.gcsPath = none
        ∧ (getCAFSMetadata env folder h t).1 = Except.ok none)
    ∧
    (∀ (env : Env) (folder h : String) (s : Store) (mb : Blob) (e : CAFSEntry),
      lookupKey s.blobs (metadataPathOf folder h) = some mb →
      mb.data = BlobData.doc e →
      env.blobReadFails (metadataPathOf folder h) = false →
      env.blobDeleteFails e.gcsPath = false →
      env.blobDeleteFails (metadataPathOf folder h) = false →
      e.gcsPath ≠ metadataPathOf folder h →
      ∃ t, deleteContent env folder h true s = (Except.ok (), t)
        ∧ lookupKey t.blobs e.gcsPath = none
        ∧ (getCAFSMetadata env folder h t).1 = Except.ok none)
    ∧
    (∀ (env : Env) (folder h : String) (s : Store) (mb : Blob) (e : CAFSEntry),
      lookupKey s.blobs (metadataPathOf folder h) = some mb →
      mb.data = BlobData.doc e →
      env.blobReadFails (metadataPathOf folder h) = false →
      env.blobDeleteFails e.gcsPath = true →
      deleteContent env folder h true s =
        (Except.error ("Failed to delete content: Failed to delete file " ++ e.gcsPath), s)
        ∧ (getCAFSMetadata env folder h s).1 = Except.ok (some e)) := by
  refine ⟨?_, ?_, ?_, ?_, ?_⟩
  · intro env folder h fd s hmp
    unfold deleteContent
    simp [tryCatchM, runBind, getCAFSMetadata_absent env folder h s hmp, throwM]
    rw [← String.append_assoc]
    rfl
  · intro env folder h s mb e hmp hdoc hch hrf hwf hgp hrc
    have hne : (e.metadata.referenceCount - 1 == 0) = false := by
      simp only [beq_eq_false_iff_ne, ne_eq]
      omega
    refine ⟨{ s with
                blobs := setKey s.blobs (metadataPathOf folder h)
                  (metadataBlob
                    { e with
                      metadata := { e.metadata with
                        referenceCount :=
                          (max 0 ((e.metadata.referenceCount : Int) + (-1))).toNat } }
                    e.metadata.timestamp) },
      ?_, ?_, ?_⟩
    · unfold deleteContent
      simp only [tryCatchM, runBind,
        getCAFSMetadata_found env folder h s mb e hmp hdoc hrf,
        Bool.false_eq_true, if_false,
        updateReferenceCount_run env folder h (-1) s mb e hmp hdoc hch hrf hwf,
        runPure, hne]
    · exact lookupKey_setKey_ne s.blobs _ e.gcsPath _ (Ne.symm hgp)
    · rw [getCAFSMetadata_run]
      simp [lookupKey_setKey_self, hrf, metadataBlob, maxSubOne]
  · intro env folder h s mb e hmp hdoc hch hrf hwf hdg hdm hgp hrc
    have hz : (e.metadata.referenceCount - 1 == 0) = true := by
      simp [hrc]
    refine ⟨{ s with
                blobs := removeKey (removeKey (setKey s.blobs (metadataPathOf folder h)
                  (metadataBlob
                    { e with
                      metadata := { e.metadata with
                        referenceCount :=
                          (max 0 ((e.metadata.referenceCount : Int) + (-1))).toNat } }
                    e.metadata.timestamp)) e.gcsPath) (metadataPathOf folder h) },
      ?_, ?_, ?_⟩
    · unfold deleteContent deleteCAFSMetadata
      simp only [tryCatchM, runBind,
        getCAFSMetadata_found env folder h s mb e hmp hdoc hrf,
        Bool.false_eq_true, if_false,
        updateReferenceCount_run env folder h (-1) s mb e hmp hdoc hch hrf hwf,
        runPure, hz, deleteFile, hdg, hdm, if_true]
    · rw [lookupKey_removeKey_ne _ _ _ (Ne.symm hgp),
        lookupKey_removeKey_self]
    · rw [getCAFSMetadata_run]
      simp [lookupKey_removeKey_self]
  · intro env folder h s mb e hmp hdoc hrf hdg hdm hgp
    refine ⟨{ s with
                blobs := removeKey (removeKey s.blobs e.gcsPath)
                  (metadataPathOf folder h) },
      ?_, ?_, ?_⟩
    · unfold deleteContent deleteCAFSMetadata
      simp only [tryCatchM, runBind,
        getCAFSMetadata_found env folder h s mb e hmp hdoc hrf, runPure]
      simp [deleteFile, hdg, hdm, runBind, runPure]
    · rw [lookupKey_removeKey_ne _ _ _ (Ne.symm hgp),
        lookupKey_removeKey_self]
    · rw [getCAFSMetadata_run]
      simp [lookupKey_removeKey_self]
  · intro env folder h s mb e hmp hdoc hrf hdg
    constructor
    · unfold deleteContent
      simp only [tryCatchM, runBind,
        getCAFSMetadata_found env folder h s mb e hmp hdoc hrf, runPure]
      simp [deleteFile, hdg, throwM, runBind, runPure]
      rw [← String.append_assoc]
      rfl
    · rw [getCAFSMetadata_found env folder h s mb e hmp hdoc hrf]

/-- C7 witness: the four delete behaviours at concrete inputs — NotFound on an
empty store; decrement 2→1 leaving the blob; full removal at count 1; and the
ordering fact that a failing blob delete leaves the entry document present. -/
theorem C7_delete_lifecycle_witness :
    deleteContent envFix "cafs" "zzz" false emptyStore =
      (Except.error "Failed to delete content: CAFS entry not found for hash zzz",
       emptyStore)
    ∧ (∃ t, deleteContent envFix "cafs" "abc123" false (stateWith "abc123" 2) =
          (Except.ok (), t)
        ∧ lookupKey t.blobs (entFix "abc123" 2).gcsPath =
            lookupKey (stateWith "abc123" 2).blobs (entFix "abc123" 2).gcsPath
        ∧ (getCAFSMetadata envFix "cafs" "abc123" t).1 =
            Except.ok (some (entFix "abc123" 1)))
    ∧ (∃ t, deleteContent envFix "cafs" "abc123" false (stateWith "abc123" 1) =
          (Except.ok (), t)
        ∧ lookupKey t.blobs (entFix "abc123" 1).gcsPath = none
        ∧ (getCAFSMetadata envFix "cafs" "abc123" t).1 = Except.ok none)
    ∧ (deleteContent envDelFailFix "cafs" "abc123" true (stateWith "abc123" 1) =
          (Except.error "Failed to delete content: Failed to delete file cafs/abc123",
           stateWith "abc123" 1)
        ∧ (getCAFSMetadata envDelFailFix "cafs" "abc123" (stateWith "abc123" 1)).1 =
            Except.ok (some (entFix "abc123" 1))) := by
  refine ⟨?_, ?_, ?_, ?_⟩
  · exact C7_delete_lifecycle.1 envFix "cafs" "zzz" false emptyStore rfl
  · exact C7_delete_lifecycle.2.1 envFix "cafs" "abc123" (stateWith "abc123" 2)
      (metadataBlob (entFix "abc123" 2) "T0") (entFix "abc123" 2)
      rfl rfl rfl rfl rfl (by decide) (by decide)
  · exact C7_delete_lifecycle.2.2.1 envFix "cafs" "abc123" (stateWith "abc123" 1)
      (metadataBlob (entFix "abc123" 1) "T0") (entFix "abc123" 1)
      rfl rfl rfl rfl rfl rfl rfl (by decide) rfl
  · exact C7_delete_lifecycle.2.2.2.2 envDelFailFix "cafs" "abc123"
      (stateWith "abc123" 1)
      (metadataBlob (entFix "abc123" 1) "T0") (entFix "abc123" 1)
      rfl rfl rfl rfl

/-- C9: an entry's creation timestamp is set at store time and never mutated:
the dedup-hit reference-count update (the delete-path decrement goes through
the same helper) and the read-path lastAccessedAt update both preserve it, and
they mutate nothing except referenceCount respectively lastAccessedAt. -/
theorem C9_timestamp_immutable (env : Env) (folder h : String) (delta : Int)
    (s : Store) (mb : Blob) (e : CAFSEntry)
    (hmp : lookupKey s.blobs (metadataPathOf folder h) = some mb)
    (hdoc : mb.data = BlobData.doc e)
    (hch : e.contentHash = h)
    (hrf : env.blobReadFails (metadataPathOf folder h) = false)
    (hwf : env.blobWriteFails (metadataPathOf folder h) = false) :
    (∃ e1, (getCAFSMetadata env folder h
        (updateReferenceCount env folder h delta s).2).1 = Except.ok (some e1)
      ∧ e1.metadata.timestamp = e.metadata.timestamp
      ∧ e1.contentHash = e.contentHash
      ∧ e1.gcsPath = e.gcsPath
      ∧ e1.metadata.contentSize = e.metadata.contentSize
      ∧ e1.metadata.contentType = e.metadata.contentType
      ∧ e1.metadata.lastAccessedAt = e.metadata.lastAccessedAt
      ∧ e1.metadata.tags = e.metadata.tags
      ∧ e1.metadata.customProperties = e.metadata.customProperties
      ∧ e1.referencedBy = e.referencedBy)
    ∧ (∃ e2, (getCAFSMetadata env folder h
        (updateLastAccessTime env folder h s).2).1 = Except.ok (some e2)
      ∧ e2.metadata.timestamp = e.metadata.timestamp
      ∧ e2.metadata.referenceCount = e.metadata.referenceCount
      ∧ e2.metadata.lastAccessedAt = env.nowDate
      ∧ e2.contentHash = e.contentHash
      ∧ e2.gcsPath = e.gcsPath
      ∧ e2.metadata.contentSize = e.metadata.contentSize
      ∧ e2.metadata.contentType = e.metadata.contentType
      ∧ e2.metadata.tags = e.metadata.tags
      ∧ e2.metadata.customProperties = e.metadata.customProperties) := by
  constructor
  · refine ⟨{ e with
                metadata := { e.metadata with
                  referenceCount :=
                    (max 0 ((e.metadata.referenceCount : Int) + delta)).toNat } },
      ?_, rfl, rfl, rfl, rfl, rfl, rfl, rfl, rfl, rfl⟩
    rw [updateReferenceCount_run env folder h delta s mb e hmp hdoc hch hrf hwf]
    rw [getCAFSMetadata_run]
    simp [lookupKey_setKey_self, hrf, metadataBlob]
  · refine ⟨{ e with
                metadata := { e.metadata with lastAccessedAt := env.nowDate } },
      ?_, rfl, rfl, rfl, rfl, rfl, rfl, rfl, rfl, rfl⟩
    rw [updateLastAccessTime_run env folder h s mb e hmp hdoc hch hrf hwf]
    rw [getCAFSMetadata_run]
    simp [lookupKey_setKey_self, hrf, metadataBlob]

/-- C9 witness: the two update operations on a concrete stored entry whose
creation timestamp is "T0". -/
theorem C9_timestamp_immutable_witness :
    (∃ e1, (getCAFSMetadata envFix "cafs" "abc123"
        (updateReferenceCount envFix "cafs" "abc123" 1 (stateWith "abc123" 1)).2).1 =
        Except.ok (some e1)
      ∧ e1.metadata.timestamp = "T0"
      ∧ e1.contentHash = "abc123"
      ∧ e1.gcsPath = "cafs/abc123"
      ∧ e1.metadata.contentSize = 5
      ∧ e1.metadata.contentType = "application/json"
      ∧ e1.metadata.lastAccessedAt = "A0"
      ∧ e1.metadata.tags = ([] : List String)
      ∧ e1.metadata.customProperties = ([] : List (String × String))
      ∧ e1.referencedBy = ([] : List String))
    ∧ (∃ e2, (getCAFSMetadata envFix "cafs" "abc123"
        (updateLastAccessTime envFix "cafs" "abc123" (stateWith "abc123" 1)).2).1 =
        Except.ok (some e2)
      ∧ e2.metadata.timestamp = "T0"
      ∧ e2.metadata.referenceCount = 1
      ∧ e2.metadata.lastAccessedAt = envFix.nowDate
      ∧ e2.contentHash = "abc123"
      ∧ e2.gcsPath = "cafs/abc123"
      ∧ e2.metadata.contentSize = 5
      ∧ e2.metadata.contentType = "application/json"
      ∧ e2.metadata.tags = ([] : List String)
      ∧ e2.metadata.customProperties = ([] : List (String × String))) :=
  C9_timestamp_immutable envFix "cafs" "abc123" 1 (stateWith "abc123" 1)
    (metadataBlob (entFix "abc123" 1) "T0") (entFix "abc123" 1)
    rfl rfl rfl rfl rfl
